import Mathlib

/-!
Verification of the DPD thermostat kernel (`src/DPDThermostat.cpp`) against its
design specification.  The numerics are embedded shallowly over the real
numbers: `Real3D` mirrors the 3-vector type, particles carry position,
velocity and force, the random source is an explicit stream with a cursor,
and each kernel is a pure state-passing function returning the updated pair,
stress accumulators and random-source state.
-/

namespace DPD

noncomputable section

/-- 3-component real vector, mirroring `Real3D` of the source. -/
@[ext]
structure Real3D where
  x : ℝ
  y : ℝ
  z : ℝ

instance : Add Real3D := ⟨fun a b => ⟨a.x + b.x, a.y + b.y, a.z + b.z⟩⟩

instance : Sub Real3D := ⟨fun a b => ⟨a.x - b.x, a.y - b.y, a.z - b.z⟩⟩

instance : Neg Real3D := ⟨fun a => ⟨-a.x, -a.y, -a.z⟩⟩

instance : SMul ℝ Real3D := ⟨fun s a => ⟨s * a.x, s * a.y, s * a.z⟩⟩

/-- Dot product, mirroring `Real3D::operator*` between two vectors. -/
def Real3D.dot (a b : Real3D) : ℝ := a.x * b.x + a.y * b.y + a.z * b.z

/-- Squared norm, mirroring `Real3D::sqr()`. -/
def Real3D.sqr (a : Real3D) : ℝ := a.dot a

/-- Componentwise division by a scalar, mirroring `r /= dist`. -/
def Real3D.divScalar (a : Real3D) (s : ℝ) : Real3D := ⟨a.x / s, a.y / s, a.z / s⟩

/-- Particle state as seen by the kernels: position and velocity are read,
force is accumulated into. -/
structure Particle where
  position : Real3D
  velocity : Real3D
  force : Real3D

/-- The uniform random source: an abstract stream of draws and a cursor.
`next` returns the current draw and advances the cursor, modelling one call
of `(*rng)()`. -/
structure RNG where
  seq : ℕ → ℝ
  idx : ℕ

/-- One call of the random source: yield the current draw, advance. -/
def RNG.next (g : RNG) : ℝ × RNG := (g.seq g.idx, ⟨g.seq, g.idx + 1⟩)

/-- The pieces of the surrounding `System` the kernels touch: the skin and
the shear/viscosity stress bookkeeping. -/
structure SystemState where
  skin : ℝ
  ifShear : Bool
  ifViscosity : Bool
  dyadicP_xz : ℝ
  dyadicP_zx : ℝ

/-- The thermostat's own member state. -/
structure DPDThermostat where
  gamma : ℝ
  tgamma : ℝ
  temperature : ℝ
  pref1 : ℝ
  pref2 : ℝ
  pref3 : ℝ
  pref4 : ℝ
  pref2buffer : ℝ
  pref4buffer : ℝ
  current_cutoff : ℝ
  current_cutoff_sqr : ℝ

/-- The member state written by the constructor body (lines 50-54): `gamma`
and `temperature` are set to 0 and the cutoff state is computed; every other
member keeps whatever indeterminate value `pre` it had before the body ran
(the constructor has no member initializers for them). -/
def constructState (pre : DPDThermostat) (verletCutoff skin : ℝ) : DPDThermostat :=
  { pre with
    gamma := 0
    temperature := 0
    current_cutoff := verletCutoff - skin
    current_cutoff_sqr := (verletCutoff - skin) * (verletCutoff - skin) }

/-- The constructor (lines 44-64): writes the members as in `constructState`
and throws if the system has no random source. -/
def construct (pre : DPDThermostat) (verletCutoff skin : ℝ) (rng : Option RNG) :
    Except String DPDThermostat :=
  match rng with
  | none => Except.error "system has no RNG"
  | some _ => Except.ok (constructState pre verletCutoff skin)

/-- `setGamma` (line 66). -/
def DPDThermostat.setGamma (th : DPDThermostat) (g : ℝ) : DPDThermostat :=
  { th with gamma := g }

/-- `setTGamma` (line 70). -/
def DPDThermostat.setTGamma (th : DPDThermostat) (g : ℝ) : DPDThermostat :=
  { th with tgamma := g }

/-- `setTemperature` (line 74). -/
def DPDThermostat.setTemperature (th : DPDThermostat) (t : ℝ) : DPDThermostat :=
  { th with temperature := t }

/-- `initialize()` (lines 272-289): recompute the cutoff state from the
current verlet cutoff and skin, and the four prefactors from the current
configuration and timestep. -/
noncomputable def DPDThermostat.initializeThermostat (th : DPDThermostat)
    (verletCutoff skin timestep : ℝ) : DPDThermostat :=
  { th with
    current_cutoff := verletCutoff - skin
    current_cutoff_sqr := (verletCutoff - skin) * (verletCutoff - skin)
    pref1 := th.gamma
    pref2 := Real.sqrt (24.0 * th.temperature * th.gamma / timestep)
    pref3 := th.tgamma
    pref4 := Real.sqrt (24.0 * th.temperature * th.tgamma / timestep) }

/-- `heatUp()` (lines 299-307). -/
noncomputable def DPDThermostat.heatUp (th : DPDThermostat) : DPDThermostat :=
  { th with
    pref2buffer := th.pref2
    pref2 := th.pref2 * Real.sqrt 3.0
    pref4buffer := th.pref4
    pref4 := th.pref4 * Real.sqrt 3.0 }

/-- `coolDown()` (lines 311-317). -/
def DPDThermostat.coolDown (th : DPDThermostat) : DPDThermostat :=
  { th with
    pref2 := th.pref2buffer
    pref4 := th.pref4buffer }

/-- Result of one kernel invocation on a pair: the two updated particles,
the updated stress accumulators and the advanced random source. -/
structure PairResult where
  p1 : Particle
  p2 : Particle
  sys : SystemState
  rng : RNG

/-- The componentwise projector application of the source (lines 234-255):
`(P v)_i = (1 - r_i r_i) v_i - Σ_{j ≠ i} r_i r_j v_j`. -/
def proj (r v : Real3D) : Real3D :=
  ⟨(1.0 - r.x * r.x) * v.x - r.x * r.y * v.y - r.x * r.z * v.z,
   (1.0 - r.y * r.y) * v.y - r.y * r.x * v.x - r.y * r.z * v.z,
   (1.0 - r.z * r.z) * v.z - r.z * r.x * v.x - r.z * r.y * v.y⟩

/-- `frictionThermoDPD` (lines 118-176): the scalar (standard) DPD kernel. -/
noncomputable def frictionThermoDPD (th : DPDThermostat) (sys : SystemState)
    (g : RNG) (p1 p2 : Particle) : PairResult :=
  let r := p1.position - p2.position
  let dist2 := r.sqr
  if dist2 < th.current_cutoff_sqr then
    let dist := Real.sqrt dist2
    let omega := 1 - dist / th.current_cutoff
    let omega2 := omega * omega
    let rn := r.divScalar dist
    let veldiff := (p1.velocity - p2.velocity).dot rn
    let friction := th.pref1 * omega2 * veldiff
    let u := g.next
    let r0 := u.1 - 0.5
    let noise := th.pref2 * omega * r0
    let f : Real3D := (noise - friction) • rn
    let q1 := { p1 with force := p1.force + f }
    let q2 := { p2 with force := p2.force - f }
    let sysOut :=
      if sys.ifShear && sys.ifViscosity then
        { sys with
          dyadicP_xz := sys.dyadicP_xz + rn.x * f.z
          dyadicP_zx := sys.dyadicP_zx + rn.z * f.x }
      else sys
    ⟨q1, q2, sysOut, u.2⟩
  else ⟨p1, p2, sys, g⟩

/-- `frictionThermoTDPD` (lines 178-270): the transverse DPD kernel.
`veldiff` is the 3-component relative velocity (the vector declaration of
the source; its actual use is vectorial throughout). -/
noncomputable def frictionThermoTDPD (th : DPDThermostat) (sys : SystemState)
    (g : RNG) (p1 p2 : Particle) : PairResult :=
  let r := p1.position - p2.position
  let dist2 := r.sqr
  if dist2 < th.current_cutoff_sqr then
    let dist := Real.sqrt dist2
    let omega := 1 - dist / th.current_cutoff
    let omega2 := omega * omega
    let rn := r.divScalar dist
    let u0 := g.next
    let u1 := u0.2.next
    let u2 := u1.2.next
    let noisevec : Real3D := ⟨u0.1 - 0.5, u1.1 - 0.5, u2.1 - 0.5⟩
    let veldiff := p1.velocity - p2.velocity
    let fDamp0 := proj rn veldiff
    let fRand0 := proj rn noisevec
    let fDamp := (th.pref3 * omega2) • fDamp0
    let fRand := (th.pref4 * omega) • fRand0
    let fTmp := fRand - fDamp
    let q1 := { p1 with force := p1.force + fTmp }
    let q2 := { p2 with force := p2.force - fTmp }
    let sysOut :=
      if sys.ifShear && sys.ifViscosity then
        { sys with
          dyadicP_xz := sys.dyadicP_xz + rn.x * fTmp.z
          dyadicP_zx := sys.dyadicP_zx + rn.z * fTmp.x }
      else sys
    ⟨q1, q2, sysOut, u2.2⟩
  else ⟨p1, p2, sys, g⟩

/-- One pair of the `thermalize()` loop (lines 108-115): each kernel fires
on the pair when its coefficient is positive. -/
noncomputable def thermalizePair (th : DPDThermostat) (sys : SystemState)
    (g : RNG) (p1 p2 : Particle) : PairResult :=
  let s1 := if th.gamma > 0.0 then frictionThermoDPD th sys g p1 p2
            else ⟨p1, p2, sys, g⟩
  if th.tgamma > 0.0 then frictionThermoTDPD th s1.sys s1.rng s1.p1 s1.p2
  else s1

/-! Spec-side abbreviations: the quantities the specification's formulas are
written in, named so the claims can state them directly. -/

/-- The pair distance `dist = sqrt(d2)` of the spec. -/
noncomputable def pairDist (p1 p2 : Particle) : ℝ :=
  Real.sqrt ((p1.position - p2.position).sqr)

/-- The weighting function `ω = 1 − dist/cutoff` of the spec. -/
noncomputable def omegaOf (th : DPDThermostat) (p1 p2 : Particle) : ℝ :=
  1 - pairDist p1 p2 / th.current_cutoff

/-- The unit separation vector `r̂ = (p1.pos − p2.pos)/dist` of the spec. -/
noncomputable def rhatOf (p1 p2 : Particle) : Real3D :=
  (p1.position - p2.position).divScalar (pairDist p1 p2)

/-- The scalar-model force of the spec (§4.2, claim C2):
`f = (pref2·ω·(u − 0.5) − pref1·ω²·((v1 − v2)·r̂))·r̂`. -/
noncomputable def scalarPairForce (th : DPDThermostat) (u : ℝ) (p1 p2 : Particle) :
    Real3D :=
  (th.pref2 * omegaOf th p1 p2 * (u - 0.5) -
    th.pref1 * (omegaOf th p1 p2 * omegaOf th p1 p2) *
      ((p1.velocity - p2.velocity).dot (rhatOf p1 p2))) • rhatOf p1 p2

/-- The transverse projector of the spec (§4.3): `P·v = v − r̂(r̂·v)`. -/
def projSpec (r v : Real3D) : Real3D := v - (r.dot v) • r

/-- The transverse damping force of the spec: `f_damp = pref3·ω²·(P·veldiff)`. -/
noncomputable def transDamp (th : DPDThermostat) (p1 p2 : Particle) : Real3D :=
  (th.pref3 * (omegaOf th p1 p2 * omegaOf th p1 p2)) •
    projSpec (rhatOf p1 p2) (p1.velocity - p2.velocity)

/-- The transverse random force of the spec: `f_rand = pref4·ω·(P·n)`. -/
noncomputable def transRand (th : DPDThermostat) (n : Real3D) (p1 p2 : Particle) :
    Real3D :=
  (th.pref4 * omegaOf th p1 p2) • projSpec (rhatOf p1 p2) n

/-- The vector of three recentered draws the transverse kernel consumes,
expressed in terms of the incoming random-source state. -/
def noiseVecOf (g : RNG) : Real3D :=
  ⟨g.seq g.idx - 0.5, g.seq (g.idx + 1) - 0.5, g.seq (g.idx + 2) - 0.5⟩

/-! Concrete states used to evaluate the theorems on explicit inputs. -/

/-- A particle at (1/2, 0, 0) moving along x. -/
def wP1 : Particle := ⟨⟨1/2, 0, 0⟩, ⟨1, 0, 0⟩, ⟨0, 0, 0⟩⟩

/-- A particle at rest at the origin. -/
def wP2 : Particle := ⟨⟨0, 0, 0⟩, ⟨0, 0, 0⟩, ⟨0, 0, 0⟩⟩

/-- A particle at rest at (2, 0, 0), beyond the test cutoff. -/
def wP3 : Particle := ⟨⟨2, 0, 0⟩, ⟨0, 0, 0⟩, ⟨0, 0, 0⟩⟩

/-- A thermostat state with unit coefficients and cutoff 1. -/
def wTh : DPDThermostat := ⟨1, 1, 1, 1, 2, 1, 2, 0, 0, 1, 1⟩

/-- A system state with the stress bookkeeping off. -/
def wSys : SystemState := ⟨0, false, false, 0, 0⟩

/-- A random source that always draws 1/2. -/
def wRng : RNG := ⟨fun _ => 1/2, 0⟩

/-! ### Unfolding and algebra lemmas for the vector operations -/

@[simp]
theorem Real3D.add_def (a b : Real3D) :
    a + b = ⟨a.x + b.x, a.y + b.y, a.z + b.z⟩ := rfl

@[simp]
theorem Real3D.sub_def (a b : Real3D) :
    a - b = ⟨a.x - b.x, a.y - b.y, a.z - b.z⟩ := rfl

@[simp]
theorem Real3D.neg_def (a : Real3D) : -a = ⟨-a.x, -a.y, -a.z⟩ := rfl

@[simp]
theorem Real3D.smul_def (s : ℝ) (a : Real3D) :
    s • a = ⟨s * a.x, s * a.y, s * a.z⟩ := rfl

theorem Real3D.smul_dot (s : ℝ) (a r : Real3D) : (s • a).dot r = s * a.dot r := by
  simp [Real3D.dot]; ring

theorem Real3D.sub_dot (a b r : Real3D) : (a - b).dot r = a.dot r - b.dot r := by
  simp [Real3D.dot]; ring

theorem Real3D.add_sub_cancel3 (a b : Real3D) : a + b - a = b := by
  ext <;> simp

theorem Real3D.sub_sub_cancel3 (a b : Real3D) : a - b - a = -b := by
  ext <;> simp

theorem Real3D.sqr_nonneg (a : Real3D) : 0 ≤ a.sqr := by
  simp only [Real3D.sqr, Real3D.dot]
  nlinarith [mul_self_nonneg a.x, mul_self_nonneg a.y, mul_self_nonneg a.z]

/-- The componentwise projector of the source equals the spec's
`P·v = v − r̂(r̂·v)` for every `r` and `v`, by pure algebra. -/
theorem proj_eq_projSpec (r v : Real3D) : proj r v = projSpec r v := by
  ext <;> simp [proj, projSpec, Real3D.dot] <;> ring

theorem projSpec_dot (r v : Real3D) :
    (projSpec r v).dot r = v.dot r * (1 - r.dot r) := by
  simp [projSpec, Real3D.dot]; ring

/-- Normalizing a vector of non-zero squared norm by the square root of that
norm yields a unit vector. -/
theorem Real3D.unit_of_divScalar_sqrt (a : Real3D) (h : a.sqr ≠ 0) :
    (a.divScalar (Real.sqrt a.sqr)).dot (a.divScalar (Real.sqrt a.sqr)) = 1 := by
  have hnn : (0:ℝ) ≤ a.sqr := a.sqr_nonneg
  have hm : Real.sqrt a.sqr * Real.sqrt a.sqr = a.sqr := Real.mul_self_sqrt hnn
  simp only [Real3D.divScalar, Real3D.dot]
  calc a.x / Real.sqrt a.sqr * (a.x / Real.sqrt a.sqr) +
        a.y / Real.sqrt a.sqr * (a.y / Real.sqrt a.sqr) +
        a.z / Real.sqrt a.sqr * (a.z / Real.sqrt a.sqr)
      = (a.x * a.x + a.y * a.y + a.z * a.z) /
          (Real.sqrt a.sqr * Real.sqrt a.sqr) := by ring
    _ = a.sqr / a.sqr := by rw [hm]; rfl
    _ = 1 := div_self h

/-- The unit separation vector has unit dot with itself whenever the pair
separation is non-zero. -/
theorem rhat_unit (p1 p2 : Particle)
    (h : (p1.position - p2.position).sqr ≠ 0) :
    (rhatOf p1 p2).dot (rhatOf p1 p2) = 1 :=
  Real3D.unit_of_divScalar_sqrt (p1.position - p2.position) h

/-! ### In-cutoff normal forms of the two kernels -/

/-- Inside the cutoff, the scalar kernel applies the spec's scalar force with
opposite signs, updates the stress accumulators when the flags are on, and
consumes exactly one draw. -/
theorem frictionThermoDPD_in_cutoff (th : DPDThermostat) (sys : SystemState)
    (g : RNG) (p1 p2 : Particle)
    (hin : (p1.position - p2.position).sqr < th.current_cutoff_sqr) :
    frictionThermoDPD th sys g p1 p2 =
      ⟨{ p1 with force := p1.force + scalarPairForce th (g.seq g.idx) p1 p2 },
       { p2 with force := p2.force - scalarPairForce th (g.seq g.idx) p1 p2 },
       if sys.ifShear && sys.ifViscosity then
         { sys with
           dyadicP_xz := sys.dyadicP_xz +
             (rhatOf p1 p2).x * (scalarPairForce th (g.seq g.idx) p1 p2).z
           dyadicP_zx := sys.dyadicP_zx +
             (rhatOf p1 p2).z * (scalarPairForce th (g.seq g.idx) p1 p2).x }
       else sys,
       ⟨g.seq, g.idx + 1⟩⟩ := by
  rw [frictionThermoDPD]
  rw [if_pos hin]
  rfl

/-- Inside the cutoff, the transverse kernel applies `f_rand − f_damp` in the
spec's projected form with opposite signs and consumes exactly three draws. -/
theorem frictionThermoTDPD_in_cutoff (th : DPDThermostat) (sys : SystemState)
    (g : RNG) (p1 p2 : Particle)
    (hin : (p1.position - p2.position).sqr < th.current_cutoff_sqr) :
    frictionThermoTDPD th sys g p1 p2 =
      ⟨{ p1 with force := p1.force +
           (transRand th (noiseVecOf g) p1 p2 - transDamp th p1 p2) },
       { p2 with force := p2.force -
           (transRand th (noiseVecOf g) p1 p2 - transDamp th p1 p2) },
       if sys.ifShear && sys.ifViscosity then
         { sys with
           dyadicP_xz := sys.dyadicP_xz + (rhatOf p1 p2).x *
             (transRand th (noiseVecOf g) p1 p2 - transDamp th p1 p2).z
           dyadicP_zx := sys.dyadicP_zx + (rhatOf p1 p2).z *
             (transRand th (noiseVecOf g) p1 p2 - transDamp th p1 p2).x }
       else sys,
       ⟨g.seq, g.idx + 1 + 1 + 1⟩⟩ := by
  rw [frictionThermoTDPD]
  rw [if_pos hin]
  simp only [proj_eq_projSpec]
  rfl

/-! ### The claims -/

/-- Claim C1: for every pair processed by either kernel (scalar or
transverse) with squared separation inside the cutoff and non-zero
separation, the force contribution added to `p1` equals the exact negative
of the contribution added to `p2`, applied in the same operation. -/
theorem pair_force_antisymm (th : DPDThermostat) (sys : SystemState) (g : RNG)
    (p1 p2 : Particle)
    (hin : (p1.position - p2.position).sqr < th.current_cutoff_sqr)
    (hnz : (p1.position - p2.position).sqr ≠ 0) :
    (frictionThermoDPD th sys g p1 p2).p1.force - p1.force =
      -((frictionThermoDPD th sys g p1 p2).p2.force - p2.force) ∧
    (frictionThermoTDPD th sys g p1 p2).p1.force - p1.force =
      -((frictionThermoTDPD th sys g p1 p2).p2.force - p2.force) := by
  rw [frictionThermoDPD_in_cutoff th sys g p1 p2 hin,
    frictionThermoTDPD_in_cutoff th sys g p1 p2 hin]
  constructor <;> ext <;> simp

/-- Witness for C1 at a concrete in-cutoff pair. -/
theorem pair_force_antisymm_witness :
    (wP1.position - wP2.position).sqr < wTh.current_cutoff_sqr ∧
    (wP1.position - wP2.position).sqr ≠ 0 ∧
    ((frictionThermoDPD wTh wSys wRng wP1 wP2).p1.force - wP1.force =
        -((frictionThermoDPD wTh wSys wRng wP1 wP2).p2.force - wP2.force) ∧
      (frictionThermoTDPD wTh wSys wRng wP1 wP2).p1.force - wP1.force =
        -((frictionThermoTDPD wTh wSys wRng wP1 wP2).p2.force - wP2.force)) :=
  ⟨by norm_num [wP1, wP2, wTh, Real3D.sqr, Real3D.dot],
   by norm_num [wP1, wP2, Real3D.sqr, Real3D.dot],
   pair_force_antisymm wTh wSys wRng wP1 wP2
     (by norm_num [wP1, wP2, wTh, Real3D.sqr, Real3D.dot])
     (by norm_num [wP1, wP2, Real3D.sqr, Real3D.dot])⟩

/-- Claim C2: for a pair with squared separation below the cutoff and
positive distance, the scalar kernel adds to `p1`'s force exactly
`f = (pref2·ω·(u − 0.5) − pref1·ω²·((v1 − v2)·r̂))·r̂` — with `ω = 1 −
dist/cutoff`, `r̂` the unit separation vector and `u` the single draw taken
for the pair — and subtracts the same `f` from `p2`'s force. -/
theorem scalar_kernel_force (th : DPDThermostat) (sys : SystemState) (g : RNG)
    (p1 p2 : Particle)
    (hin : (p1.position - p2.position).sqr < th.current_cutoff_sqr)
    (hd : 0 < pairDist p1 p2) :
    (frictionThermoDPD th sys g p1 p2).p1.force =
      p1.force + scalarPairForce th (g.seq g.idx) p1 p2 ∧
    (frictionThermoDPD th sys g p1 p2).p2.force =
      p2.force - scalarPairForce th (g.seq g.idx) p1 p2 := by
  rw [frictionThermoDPD_in_cutoff th sys g p1 p2 hin]
  exact ⟨rfl, rfl⟩

/-- Witness for C2 at a concrete in-cutoff pair. -/
theorem scalar_kernel_force_witness :
    (wP1.position - wP2.position).sqr < wTh.current_cutoff_sqr ∧
    0 < pairDist wP1 wP2 ∧
    ((frictionThermoDPD wTh wSys wRng wP1 wP2).p1.force =
        wP1.force + scalarPairForce wTh (wRng.seq wRng.idx) wP1 wP2 ∧
      (frictionThermoDPD wTh wSys wRng wP1 wP2).p2.force =
        wP2.force - scalarPairForce wTh (wRng.seq wRng.idx) wP1 wP2) :=
  ⟨by norm_num [wP1, wP2, wTh, Real3D.sqr, Real3D.dot],
   by norm_num [pairDist, wP1, wP2, Real3D.sqr, Real3D.dot, Real.sqrt_pos],
   scalar_kernel_force wTh wSys wRng wP1 wP2
     (by norm_num [wP1, wP2, wTh, Real3D.sqr, Real3D.dot])
     (by norm_num [pairDist, wP1, wP2, Real3D.sqr, Real3D.dot, Real.sqrt_pos])⟩

/-- Claim C3: `initialize()` recomputes `pref1 = gamma`,
`pref2 = sqrt(24·temperature·gamma/dt)`, `pref3 = tgamma`,
`pref4 = sqrt(24·temperature·tgamma/dt)`, `cutoff = verletCutoff − skin` and
`cutoff_sqr = cutoff²`, with the constant 24 exactly. -/
theorem initialize_prefactors (th : DPDThermostat) (vc skin dt : ℝ) :
    (th.initializeThermostat vc skin dt).pref1 = th.gamma ∧
    (th.initializeThermostat vc skin dt).pref2 =
      Real.sqrt (24 * th.temperature * th.gamma / dt) ∧
    (th.initializeThermostat vc skin dt).pref3 = th.tgamma ∧
    (th.initializeThermostat vc skin dt).pref4 =
      Real.sqrt (24 * th.temperature * th.tgamma / dt) ∧
    (th.initializeThermostat vc skin dt).current_cutoff = vc - skin ∧
    (th.initializeThermostat vc skin dt).current_cutoff_sqr =
      (th.initializeThermostat vc skin dt).current_cutoff *
        (th.initializeThermostat vc skin dt).current_cutoff := by
  refine ⟨rfl, ?_, rfl, ?_, rfl, rfl⟩ <;> norm_num [DPDThermostat.initializeThermostat]

/-- Claim C4: inside the cutoff with non-zero separation, the transverse
kernel computes `f_damp = pref3·ω²·(P·veldiff)` and
`f_rand = pref4·ω·(P·n)` with `P·v = v − r̂(r̂·v)`, `veldiff = v1 − v2` the
3-component relative velocity and `n` the vector of three recentered draws,
adds `f = f_rand − f_damp` to `p1`'s force and subtracts it from `p2`'s. -/
theorem transverse_kernel_force (th : DPDThermostat) (sys : SystemState)
    (g : RNG) (p1 p2 : Particle)
    (hin : (p1.position - p2.position).sqr < th.current_cutoff_sqr)
    (hnz : (p1.position - p2.position).sqr ≠ 0) :
    (frictionThermoTDPD th sys g p1 p2).p1.force =
      p1.force + (transRand th (noiseVecOf g) p1 p2 - transDamp th p1 p2) ∧
    (frictionThermoTDPD th sys g p1 p2).p2.force =
      p2.force - (transRand th (noiseVecOf g) p1 p2 - transDamp th p1 p2) := by
  rw [frictionThermoTDPD_in_cutoff th sys g p1 p2 hin]
  exact ⟨rfl, rfl⟩

/-- Witness for C4 at a concrete in-cutoff pair. -/
theorem transverse_kernel_force_witness :
    (wP1.position - wP2.position).sqr < wTh.current_cutoff_sqr ∧
    (wP1.position - wP2.position).sqr ≠ 0 ∧
    ((frictionThermoTDPD wTh wSys wRng wP1 wP2).p1.force =
        wP1.force +
          (transRand wTh (noiseVecOf wRng) wP1 wP2 - transDamp wTh wP1 wP2) ∧
      (frictionThermoTDPD wTh wSys wRng wP1 wP2).p2.force =
        wP2.force -
          (transRand wTh (noiseVecOf wRng) wP1 wP2 - transDamp wTh wP1 wP2)) :=
  ⟨by norm_num [wP1, wP2, wTh, Real3D.sqr, Real3D.dot],
   by norm_num [wP1, wP2, Real3D.sqr, Real3D.dot],
   transverse_kernel_force wTh wSys wRng wP1 wP2
     (by norm_num [wP1, wP2, wTh, Real3D.sqr, Real3D.dot])
     (by norm_num [wP1, wP2, Real3D.sqr, Real3D.dot])⟩

/-- Claim C5: in the transverse kernel, for every pair inside the cutoff
with non-zero separation and arbitrary velocities and draws, the damping
contribution, the random contribution and the applied force are each exactly
orthogonal to the unit separation vector. -/
theorem transverse_orthogonality (th : DPDThermostat) (sys : SystemState)
    (g : RNG) (p1 p2 : Particle)
    (hin : (p1.position - p2.position).sqr < th.current_cutoff_sqr)
    (hnz : (p1.position - p2.position).sqr ≠ 0) :
    (transDamp th p1 p2).dot (rhatOf p1 p2) = 0 ∧
    (transRand th (noiseVecOf g) p1 p2).dot (rhatOf p1 p2) = 0 ∧
    ((frictionThermoTDPD th sys g p1 p2).p1.force - p1.force).dot
      (rhatOf p1 p2) = 0 := by
  have hu := rhat_unit p1 p2 hnz
  have hdamp : (transDamp th p1 p2).dot (rhatOf p1 p2) = 0 := by
    unfold transDamp
    rw [Real3D.smul_dot, projSpec_dot, hu]
    ring
  have hrand : (transRand th (noiseVecOf g) p1 p2).dot (rhatOf p1 p2) = 0 := by
    unfold transRand
    rw [Real3D.smul_dot, projSpec_dot, hu]
    ring
  refine ⟨hdamp, hrand, ?_⟩
  rw [frictionThermoTDPD_in_cutoff th sys g p1 p2 hin]
  show ((p1.force + (transRand th (noiseVecOf g) p1 p2 - transDamp th p1 p2)) -
      p1.force).dot (rhatOf p1 p2) = 0
  rw [Real3D.add_sub_cancel3, Real3D.sub_dot, hdamp, hrand]
  ring

/-- Witness for C5 at a concrete in-cutoff pair. -/
theorem transverse_orthogonality_witness :
    (wP1.position - wP2.position).sqr < wTh.current_cutoff_sqr ∧
    (wP1.position - wP2.position).sqr ≠ 0 ∧
    ((transDamp wTh wP1 wP2).dot (rhatOf wP1 wP2) = 0 ∧
      (transRand wTh (noiseVecOf wRng) wP1 wP2).dot (rhatOf wP1 wP2) = 0 ∧
      ((frictionThermoTDPD wTh wSys wRng wP1 wP2).p1.force - wP1.force).dot
        (rhatOf wP1 wP2) = 0) :=
  ⟨by norm_num [wP1, wP2, wTh, Real3D.sqr, Real3D.dot],
   by norm_num [wP1, wP2, Real3D.sqr, Real3D.dot],
   transverse_orthogonality wTh wSys wRng wP1 wP2
     (by norm_num [wP1, wP2, wTh, Real3D.sqr, Real3D.dot])
     (by norm_num [wP1, wP2, Real3D.sqr, Real3D.dot])⟩

/-- Claim C6: `heatUp()` saves `pref2`, `pref4` into the buffers and
multiplies both by `sqrt(3)`; a subsequent `coolDown()` restores both
exactly to their pre-`heatUp` values. -/
theorem heatUp_coolDown_roundtrip (th : DPDThermostat) :
    th.heatUp.pref2buffer = th.pref2 ∧
    th.heatUp.pref4buffer = th.pref4 ∧
    th.heatUp.pref2 = th.pref2 * Real.sqrt 3 ∧
    th.heatUp.pref4 = th.pref4 * Real.sqrt 3 ∧
    th.heatUp.coolDown.pref2 = th.pref2 ∧
    th.heatUp.coolDown.pref4 = th.pref4 := by
  refine ⟨rfl, rfl, ?_, ?_, rfl, rfl⟩ <;> norm_num [DPDThermostat.heatUp]

/-- Claim C7: for a pair with squared separation at or beyond the cutoff,
both kernels leave the particles, the stress accumulators and the random
source entirely unchanged — in particular no draw is consumed. -/
theorem outside_cutoff_noop (th : DPDThermostat) (sys : SystemState)
    (g : RNG) (p1 p2 : Particle)
    (hout : th.current_cutoff_sqr ≤ (p1.position - p2.position).sqr) :
    frictionThermoDPD th sys g p1 p2 = ⟨p1, p2, sys, g⟩ ∧
    frictionThermoTDPD th sys g p1 p2 = ⟨p1, p2, sys, g⟩ := by
  constructor
  · rw [frictionThermoDPD, if_neg (not_lt.mpr hout)]
  · rw [frictionThermoTDPD, if_neg (not_lt.mpr hout)]

/-- Witness for C7 at a concrete out-of-cutoff pair. -/
theorem outside_cutoff_noop_witness :
    wTh.current_cutoff_sqr ≤ (wP3.position - wP2.position).sqr ∧
    (frictionThermoDPD wTh wSys wRng wP3 wP2 = ⟨wP3, wP2, wSys, wRng⟩ ∧
      frictionThermoTDPD wTh wSys wRng wP3 wP2 = ⟨wP3, wP2, wSys, wRng⟩) :=
  ⟨by norm_num [wP3, wP2, wTh, Real3D.sqr, Real3D.dot],
   outside_cutoff_noop wTh wSys wRng wP3 wP2
     (by norm_num [wP3, wP2, wTh, Real3D.sqr, Real3D.dot])⟩

/-- Claim C8 counterexample: with verlet cutoff 1 and skin 2 the freshly
recomputed cutoff is −1, so `current_cutoff > 0` does not hold for all
collaborator-supplied values — nothing in `initialize()` or the constructor
enforces positivity. -/
theorem cutoff_positivity_cex :
    ¬ (0 < ((⟨0, 0, 0, 0, 0, 0, 0, 0, 0, 0, 0⟩ :
        DPDThermostat).initializeThermostat 1 2 1).current_cutoff ∧
       0 < (constructState ⟨0, 0, 0, 0, 0, 0, 0, 0, 0, 0, 0⟩ 1 2).current_cutoff) := by
  norm_num [DPDThermostat.initializeThermostat, constructState]

/-- Claim C8 (amended): after construction and after every `initialize()`
call the cutoff state satisfies `current_cutoff = verletCutoff − skin`, so
`current_cutoff > 0` (and `current_cutoff_sqr > 0`) holds whenever the
supplied skin is smaller than the supplied verlet cutoff. -/
theorem cutoff_positive_of_skin_lt (pre th : DPDThermostat) (vc skin dt : ℝ)
    (h : skin < vc) :
    (constructState pre vc skin).current_cutoff = vc - skin ∧
    (th.initializeThermostat vc skin dt).current_cutoff = vc - skin ∧
    0 < (constructState pre vc skin).current_cutoff ∧
    0 < (constructState pre vc skin).current_cutoff_sqr ∧
    0 < (th.initializeThermostat vc skin dt).current_cutoff ∧
    0 < (th.initializeThermostat vc skin dt).current_cutoff_sqr := by
  have h1 : (0:ℝ) < vc - skin := sub_pos.mpr h
  exact ⟨rfl, rfl, h1, mul_pos h1 h1, h1, mul_pos h1 h1⟩

/-- Witness for the amended C8 with verlet cutoff 2 and skin 1. -/
theorem cutoff_positive_of_skin_lt_witness :
    (1:ℝ) < 2 ∧
    ((constructState wTh 2 1).current_cutoff = 2 - 1 ∧
      (wTh.initializeThermostat 2 1 1).current_cutoff = 2 - 1 ∧
      0 < (constructState wTh 2 1).current_cutoff ∧
      0 < (constructState wTh 2 1).current_cutoff_sqr ∧
      0 < (wTh.initializeThermostat 2 1 1).current_cutoff ∧
      0 < (wTh.initializeThermostat 2 1 1).current_cutoff_sqr) :=
  ⟨by norm_num,
   cutoff_positive_of_skin_lt wTh wTh 2 1 1 (by norm_num)⟩

/-- Claim C9: construction fails (with the source's error) exactly when the
system supplies no random source; when the source exists, construction
succeeds with the constructed member state and no other error condition. -/
theorem construct_requires_rng (pre : DPDThermostat) (vc skin : ℝ) :
    construct pre vc skin none = Except.error "system has no RNG" ∧
    ∀ g : RNG, construct pre vc skin (some g) =
      Except.ok (constructState pre vc skin) :=
  ⟨rfl, fun _ => rfl⟩

/-- Claim C10: the constructor body assigns `gamma = 0` and
`temperature = 0` but never assigns `tgamma`; whatever indeterminate value
the member had before the body ran is the value later read — by the
`tgamma > 0.0` dispatch and by `initialize()` when computing `pref3` — until
`setTGamma()` overwrites it. -/
theorem constructor_leaves_tgamma (pre : DPDThermostat)
    (vc skin vc2 sk2 dt t : ℝ) :
    (constructState pre vc skin).gamma = 0 ∧
    (constructState pre vc skin).temperature = 0 ∧
    (constructState pre vc skin).tgamma = pre.tgamma ∧
    ((constructState pre vc skin).initializeThermostat vc2 sk2 dt).pref3 = pre.tgamma ∧
    ((constructState pre vc skin).setTGamma t).tgamma = t :=
  ⟨rfl, rfl, rfl, rfl, rfl⟩

end

end DPD
